import Mathlib

/-!
Verification of the session and connection lifecycle layer of the
vast_sp_console backend: the sliding-window rate limiter, the JWT session
token codec, the remote-auth response handling, the VastDB connection
manager with its sticky failure state, the schema/table operations and
the VastDB error translator.  Each definition is a shallow embedding of
the corresponding Python function, with timestamps as integers and the
store and HTTP collaborators made explicit parameters.
-/

/-!
Rate limiter, from src/backend/middleware/rate_limiter.py.
The middleware keeps, per client IP, a deque of request timestamps; the
deque is modelled as a list whose head is the front.
-/

/-- Embeds `RateLimiterMiddleware.clean_old_requests`: pop timestamps from
the front of the deque while they are strictly older than
`current_time - self.period`. -/
def clean_old_requests (period now : Int) (ts : List Int) : List Int :=
  ts.dropWhile (fun t => t < now - period)

/-- Outcome of one `dispatch` call: whether the request was admitted, and
the recorded timestamps for this client afterwards. -/
structure DispatchResult where
  allowed : Bool
  recorded : List Int
deriving Repr, DecidableEq

/-- Embeds the admission logic of `RateLimiterMiddleware.dispatch`: clean
old requests, reject with HTTP 429 if the remaining count is at least
`self.calls` (without recording the current time), otherwise append the
current time and forward the request. -/
def dispatch (calls : Nat) (period now : Int) (ts : List Int) : DispatchResult :=
  let cleaned := clean_old_requests period now ts
  if calls ≤ cleaned.length then { allowed := false, recorded := cleaned }
  else { allowed := true, recorded := cleaned ++ [now] }

/-- Default of the `calls` argument of `RateLimiterMiddleware.__init__`. -/
def rateLimiterDefaultCalls : Nat := 100

/-- Default of the `period` argument of `RateLimiterMiddleware.__init__`. -/
def rateLimiterDefaultPeriod : Int := 900

/-- Runs a sequence of dispatches for one client, threading the recorded
timestamps, and returns the admission decisions in order. -/
def dispatchTrace (calls : Nat) (period : Int) : List Int → List Int → List Bool
  | [], _ => []
  | now :: rest, ts =>
    let r := dispatch calls period now ts
    r.allowed :: dispatchTrace calls period rest r.recorded

/-!
Session token codec, from src/backend/middleware/auth_middleware.py.
-/

/-- The six claim fields `authenticate_token` extracts from a decoded JWT
payload via `payload.get(...)`; a missing dict key is `none`. -/
structure SessionClaims where
  username : Option String
  vastHost : Option String
  vastPort : Option Int
  tenant : Option String
  accessToken : Option String
  refreshToken : Option String
deriving Repr, DecidableEq

/-- A JWT payload as built by `AuthHandler.encode_token`: the caller's
claims dict plus the `exp` and `iat` timestamps (in seconds). -/
structure JwtPayload where
  claims : SessionClaims
  exp : Int
  iat : Int
deriving Repr, DecidableEq

/-- HMAC-SHA256 under the shared secret, idealised as a perfect MAC: the
signature value determines, and is determined by, the signing secret and
the signed payload.  `jwt.encode` computes it and `jwt.decode` recomputes
it and compares. -/
def hs256Sign (secret : String) (p : JwtPayload) : String × JwtPayload :=
  (secret, p)

/-- A serialized JWT: its payload segment plus its signature segment. -/
structure JwtToken where
  payload : JwtPayload
  sig : String × JwtPayload
deriving Repr, DecidableEq

/-- Value of a decimal digit character, `none` otherwise. -/
def decDigit? (c : Char) : Option Nat :=
  if c.isDigit then some (c.toNat - 48) else none

/-- Value of a nonempty all-digit character sequence. -/
def digitsVal? (cs : List Char) : Option Nat :=
  if cs.isEmpty then none
  else
    cs.foldl
      (fun acc c =>
        match acc, decDigit? c with
        | some v, some d => some (v * 10 + d)
        | _, _ => none)
      (some 0)

/-- Python `int(s)` on a compact literal: an optional sign followed by
decimal digits; `none` models the raised `ValueError`. -/
def pyInt? (s : String) : Option Int :=
  match s.toList with
  | '-' :: rest => (digitsVal? rest).map (fun n => -(n : Int))
  | '+' :: rest => (digitsVal? rest).map (fun n => (n : Int))
  | cs => (digitsVal? cs).map (fun n => (n : Int))

/-- Python `s.endswith(c)` for a one-character suffix. -/
def endsWithChar (s : String) (c : Char) : Bool :=
  match s.toList.getLast? with
  | some last => last == c
  | none => false

/-- Python `s[:-1]`. -/
def dropLastChar (s : String) : String :=
  String.mk s.toList.dropLast

/-- Embeds `AuthHandler._parse_expires_in`, returning the parsed lifetime
in seconds; `none` models the `ValueError` that `int()` raises on an
unparseable string. -/
def parse_expires_in (expires_in : String) : Option Int :=
  if endsWithChar expires_in 'h' then
    (pyInt? (dropLastChar expires_in)).map (fun h => h * 3600)
  else if endsWithChar expires_in 'm' then
    (pyInt? (dropLastChar expires_in)).map (fun m => m * 60)
  else if endsWithChar expires_in 'd' then
    (pyInt? (dropLastChar expires_in)).map (fun d => d * 86400)
  else
    (pyInt? expires_in).map (fun h => h * 3600)

/-- State set up by `AuthHandler.__init__`: the secret and the algorithm
name.  The constructor does not read or parse the configured token
lifetime. -/
structure AuthHandler where
  secret : String
  algorithm : String
deriving Repr, DecidableEq

/-- Embeds `AuthHandler.__init__`. -/
def authHandlerInit (jwtSecret : String) : AuthHandler :=
  { secret := jwtSecret, algorithm := "HS256" }

/-- Embeds the module-import line `auth_handler = AuthHandler()`, the
startup point of the codec: it constructs the handler from `JWT_SECRET`
and never touches `JWT_EXPIRES_IN`, so it succeeds (returns `some`) for
every configured lifetime string. -/
def startupAuthHandler (jwtSecret : String) (_jwtExpiresIn : String) :
    Option AuthHandler :=
  some (authHandlerInit jwtSecret)

/-- Embeds `AuthHandler.encode_token`: parse the configured lifetime (an
unparseable value raises `ValueError` at mint time, modelled as `none`),
stamp `exp = now + delta` and `iat = now` into the payload, and sign. -/
def encode_token (h : AuthHandler) (expiresIn : String) (claims : SessionClaims)
    (now : Int) : Option JwtToken :=
  (parse_expires_in expiresIn).map (fun delta =>
    let p : JwtPayload := { claims := claims, exp := now + delta, iat := now }
    { payload := p, sig := hs256Sign h.secret p })

/-- The two failures `AuthHandler.decode_token` distinguishes:
`jwt.ExpiredSignatureError` and `jwt.InvalidTokenError`. -/
inductive DecodeError where
  | expired
  | invalid
deriving Repr, DecidableEq

/-- Embeds `jwt.decode` as called by `AuthHandler.decode_token`: verify
the signature segment against the shared secret and algorithm first (a
mismatch is an invalid token and nothing of the payload is returned),
then reject the token when `exp <= now` (PyJWT treats a token as expired
from its `exp` instant on), and otherwise return the embedded payload
unchanged. -/
def decode_token (h : AuthHandler) (tok : JwtToken) (now : Int) :
    Except DecodeError JwtPayload :=
  if tok.sig ≠ hs256Sign h.secret tok.payload then .error .invalid
  else if tok.payload.exp ≤ now then .error .expired
  else .ok tok.payload

/-- Embeds the `authenticate_token` dependency: decode the bearer token
and extract the six claim fields with `payload.get`; any decode failure
is caught and surfaces as HTTP 401 "Could not validate credentials". -/
def authenticate_token (h : AuthHandler) (tok : JwtToken) (now : Int) :
    Except (Nat × String) SessionClaims :=
  match decode_token h tok now with
  | .ok p => .ok p.claims
  | .error _ => .error (401, "Could not validate credentials")

/-!
Remote auth client, from src/backend/services/vast_service.py.
-/

/-- The token fields of a parsed 200-response body of the remote cluster
token endpoint; a field absent from the JSON object is `none`. -/
structure AuthResponseBody where
  access : Option String
  refresh : Option String
deriving Repr, DecidableEq

/-- Result dict of `VastService.authenticate` as seen by its caller. -/
structure VastAuthResult where
  success : Bool
  message : Option String
  accessToken : Option String
  refreshToken : Option String
deriving Repr, DecidableEq

/-- Python truthiness of `data.get("access")`: a missing key and an empty
string are both falsy. -/
def pyTruthy : Option String → Bool
  | none => false
  | some s => !(s == "")

/-- Embeds the tail of `VastService.authenticate` after a 200 response
whose body parsed as JSON (lines 148-195): when `data.get("access")` is
truthy the success result reads `data["refresh"]`, and a missing key
there raises `KeyError('refresh')`, which the enclosing
`except Exception` converts into a structured failure; a falsy access
token is reported as a missing access token. -/
def handleAuthSuccessBody (body : AuthResponseBody) : VastAuthResult :=
  if pyTruthy body.access then
    match body.refresh with
    | some r =>
      { success := true, message := none,
        accessToken := body.access, refreshToken := some r }
    | none =>
      { success := false, message := some "Authentication failed: 'refresh'",
        accessToken := none, refreshToken := none }
  else
    { success := false,
      message := some "Authentication response missing access token",
      accessToken := none, refreshToken := none }

/-!
Store connection manager, from src/backend/services/vastdb_service.py.
-/

/-- Connection-relevant state of `VastDbService`.  `sdkError` is
`VASTDB_IMPORT_ERROR` when the SDK import failed (so `vastdb_available`
is `sdkError.isNone`); `session`, `connectionAttempted` and
`connectionError` mirror `self.session`, `self._connection_attempted`
and `self._connection_error`. -/
structure DbState where
  sdkError : Option String
  session : Option Unit
  connectionAttempted : Bool
  connectionError : Option String
deriving Repr, DecidableEq

/-- Embeds `VastDbService.__init__`: `sdkCheck` is the result of
`check_vastdb_availability` (`some e` means the import failed with `e`)
and `configCheck` the result of `validate_vast_config` (`.error e` is the
raised `ValueError`). -/
def vastDbServiceInit (sdkCheck : Option String)
    (configCheck : Except String Unit) : DbState :=
  match sdkCheck with
  | some e =>
    { sdkError := some e, session := none, connectionAttempted := false,
      connectionError := some ("VastDB SDK not available: " ++ e) }
  | none =>
    match configCheck with
    | .ok _ =>
      { sdkError := none, session := none, connectionAttempted := false,
        connectionError := none }
    | .error e =>
      { sdkError := none, session := none, connectionAttempted := false,
        connectionError := some e }

/-- Embeds `VastDbService._ensure_connection`.  `env` is the outcome the
environment would give a `vastdb.connect` call; the returned number
counts how many such calls this invocation made (0 or 1). -/
def ensure_connection (env : Except String Unit) (s : DbState) :
    Bool × DbState × Nat :=
  if s.sdkError.isSome then (false, s, 0)
  else if s.session.isSome then (true, s, 0)
  else if s.connectionError.isSome then (false, s, 0)
  else if s.connectionAttempted then (false, s, 0)
  else
    match env with
    | .ok u => (true, { s with session := some u, connectionAttempted := true }, 1)
    | .error e =>
      (false, { s with connectionError := some e, connectionAttempted := true }, 1)

/-- What an operation's connection guard decided: fail fast with a
message, or go on to the store transaction. -/
inductive OpOutcome where
  | failed (message : String)
  | proceeded
deriving Repr, DecidableEq

/-- The common prelude of `create_schema`, `list_schemas`, `get_schema`,
`delete_schema` and `create_table`: fail when the SDK is unavailable,
else call `_ensure_connection` and on failure return
`self._connection_error or "VAST Database not available"`. -/
def opGuard (env : Except String Unit) (s : DbState) :
    OpOutcome × DbState × Nat :=
  match s.sdkError with
  | some e => (.failed ("VastDB SDK not available: " ++ e), s, 0)
  | none =>
    match ensure_connection env s with
    | (true, s2, n) => (.proceeded, s2, n)
    | (false, s2, n) =>
      (.failed (s2.connectionError.getD "VAST Database not available"), s2, n)

/-- The prelude of `VastDbService.connect` (the connection test), which
adds a branch reporting a configuration error detected at construction
before any connection attempt was made. -/
def connectGuard (env : Except String Unit) (s : DbState) :
    OpOutcome × DbState × Nat :=
  match s.sdkError with
  | some e => (.failed ("VastDB SDK not available: " ++ e), s, 0)
  | none =>
    if s.connectionError.isSome && !s.connectionAttempted then
      (.failed ("VAST Database configuration error: " ++ s.connectionError.getD ""),
       s, 0)
    else
      match ensure_connection env s with
      | (true, s2, n) => (.proceeded, s2, n)
      | (false, s2, n) =>
        (.failed
          (s2.connectionError.getD "Failed to establish VAST Database connection"),
         s2, n)

/-- The operations of the manager named by the spec. -/
inductive OpKind where
  | connect
  | createSchema
  | listSchemas
  | getSchema
  | deleteSchema
  | createTable
deriving Repr, DecidableEq

/-- Runs the connection guard of one operation. -/
def runOpGuard (k : OpKind) (env : Except String Unit) (s : DbState) :
    OpOutcome × DbState × Nat :=
  match k with
  | .connect => connectGuard env s
  | _ => opGuard env s

/-- Runs a sequence of operations, accumulating the number of
`vastdb.connect` attempts made across them. -/
def runOps (env : Except String Unit) : List OpKind → DbState → DbState × Nat
  | [], s => (s, 0)
  | k :: rest, s =>
    let r := runOpGuard k env s
    let out := runOps env rest r.2.1
    (out.1, r.2.2 + out.2)

/-- States `VastDbService` actually reaches: an SDK import failure is
always mirrored in `_connection_error` exactly as `__init__` records it,
and a recorded connection error implies no live session. -/
def DbWF (s : DbState) : Prop :=
  (∀ e, s.sdkError = some e →
    s.connectionError = some ("VastDB SDK not available: " ++ e)) ∧
  (s.connectionError.isSome → s.session = none)

/-!
Schema creation, from src/backend/services/vastdb_service.py.
-/

/-- The base64 alphabet used by `base64.b64encode`. -/
def base64Alphabet : List Char :=
  "ABCDEFGHIJKLMNOPQRSTUVWXYZabcdefghijklmnopqrstuvwxyz0123456789+/".toList

/-- One output character of the base64 encoding. -/
def base64Digit (n : Nat) : Char := base64Alphabet.getD n 'A'

/-- Standard base64 of a byte list (values below 256), with padding. -/
def base64Encode : List Nat → List Char
  | b1 :: b2 :: b3 :: rest =>
    let n := b1 * 65536 + b2 * 256 + b3
    base64Digit (n / 262144) :: base64Digit (n / 4096 % 64) ::
      base64Digit (n / 64 % 64) :: base64Digit (n % 64) :: base64Encode rest
  | [b1, b2] =>
    let n := b1 * 65536 + b2 * 256
    [base64Digit (n / 262144), base64Digit (n / 4096 % 64),
     base64Digit (n / 64 % 64), '=']
  | [b1] =>
    let n := b1 * 65536
    [base64Digit (n / 262144), base64Digit (n / 4096 % 64), '=', '=']
  | [] => []

/-- Embeds `VastDbService._generate_schema_id`: the first 16 characters
of `base64.b64encode(f"{bucket}-{schema}".encode()).decode()`. -/
def generate_schema_id (bucket_name schema_name : String) : String :=
  let source := bucket_name ++ "-" ++ schema_name
  String.mk ((base64Encode (source.toUTF8.toList.map (fun b => b.toNat))).take 16)

/-- The schema dict `create_schema` (and `get_schema`) builds; `created`
is `datetime.utcnow().isoformat()`, modelled as the time of the call. -/
structure SchemaDescriptor where
  name : String
  bucket : String
  path : String
  protocols : List String
  created : Int
  id : String
deriving Repr, DecidableEq

/-- Builds the schema dict of `create_schema` at time `now`. -/
def mkSchemaDescriptor (bucket_name schema_name : String) (now : Int) :
    SchemaDescriptor :=
  { name := schema_name, bucket := bucket_name,
    path := "/" ++ bucket_name ++ "/" ++ schema_name,
    protocols := ["DATABASE", "S3"],
    created := now,
    id := generate_schema_id bucket_name schema_name }

/-- Typed failures of the VastDB SDK surface that the service catches. -/
inductive SdkErr where
  | schemaExists
  | missingSchema
  | tableExists
deriving Repr, DecidableEq

/-- Message `str(e)` of an SDK failure, for the outer generic handler. -/
def sdkErrStr : SdkErr → String
  | .schemaExists => "SchemaExists"
  | .missingSchema => "MissingSchema"
  | .tableExists => "TableExists"

/-- The store's schema namespace as the SDK exposes it (spec section 6):
`bucket.create_schema` raises the typed `SchemaExists` condition when the
name collides, and otherwise creates the schema. -/
def bucket_create_schema (store : List String) (name : String) :
    Except SdkErr (List String) :=
  if name ∈ store then .error .schemaExists else .ok (store ++ [name])

/-- Result dict of `VastDbService.create_schema`. -/
structure CreateSchemaResult where
  success : Bool
  schema : Option SchemaDescriptor
  message : String
deriving Repr, DecidableEq

/-- Embeds the body of `VastDbService.create_schema` once connected
(lines 174-225): create via the SDK, catch `SchemaExists` and consult
`failIfExists` (`options.get("failIfExists", True)`); any other SDK
failure falls through to the outer `except Exception`, which returns
`str(e)`. -/
def create_schema (bucket_name : String) (store : List String)
    (schema_name : String) (failIfExists : Bool) (now : Int) :
    CreateSchemaResult × List String :=
  match bucket_create_schema store schema_name with
  | .ok store2 =>
    ({ success := true,
       schema := some (mkSchemaDescriptor bucket_name schema_name now),
       message := "Schema '" ++ schema_name ++ "' created successfully" }, store2)
  | .error .schemaExists =>
    if failIfExists then
      ({ success := false, schema := none,
         message := "Schema '" ++ schema_name ++ "' already exists" }, store)
    else
      ({ success := true,
         schema := some (mkSchemaDescriptor bucket_name schema_name now),
         message := "Schema '" ++ schema_name ++ "' already exists" }, store)
  | .error e =>
    ({ success := false, schema := none, message := sdkErrStr e }, store)

/-!
Error translator, from src/backend/middleware/vastdb_error_handler.py.
-/

/-- The VastDB SDK exception categories `handle_vastdb_error` matches on,
each carrying its `str(error)` message; `unclassified` stands for any
exception matching none of the imported classes, carrying its type name
and message. -/
inductive VastDbErr where
  | missingBucket (msg : String)
  | missingSchema (msg : String)
  | missingTable (msg : String)
  | missingProjection (msg : String)
  | schemaExists (msg : String)
  | tableExists (msg : String)
  | badRequest (msg : String)
  | invalidArgument (msg : String)
  | notSupportedSchema (msg : String)
  | tooLargeRequest (msg : String)
  | forbidden (msg : String)
  | notSupported (msg : String)
  | serviceUnavailable (msg : String)
  | connectionError (msg : String)
  | importFilesError (msg : String)
  | internalServerError (msg : String)
  | notFound (msg : String)
  | unclassified (typeName msg : String)
deriving Repr, DecidableEq

/-- The dict `handle_vastdb_error` returns. -/
structure ApiErrorResult where
  success : Bool
  message : String
  statusCode : Nat
deriving Repr, DecidableEq

/-- Embeds `handle_vastdb_error`, the translator from caught store
failures to the API error record; the `unclassified` arm is the default
branch, which logs the detail server-side and answers with a fixed
generic message. -/
def handle_vastdb_error : VastDbErr → ApiErrorResult
  | .missingBucket m => { success := false, message := m, statusCode := 404 }
  | .missingSchema m => { success := false, message := m, statusCode := 404 }
  | .missingTable m => { success := false, message := m, statusCode := 404 }
  | .missingProjection m => { success := false, message := m, statusCode := 404 }
  | .schemaExists m => { success := false, message := m, statusCode := 409 }
  | .tableExists m => { success := false, message := m, statusCode := 409 }
  | .badRequest m => { success := false, message := m, statusCode := 400 }
  | .invalidArgument m => { success := false, message := m, statusCode := 400 }
  | .notSupportedSchema m => { success := false, message := m, statusCode := 400 }
  | .tooLargeRequest m => { success := false, message := m, statusCode := 413 }
  | .forbidden m => { success := false, message := m, statusCode := 403 }
  | .notSupported m => { success := false, message := m, statusCode := 501 }
  | .serviceUnavailable m => { success := false, message := m, statusCode := 503 }
  | .connectionError _ =>
    { success := false, message := "Failed to connect to VAST Database",
      statusCode := 502 }
  | .importFilesError m => { success := false, message := m, statusCode := 400 }
  | .internalServerError m => { success := false, message := m, statusCode := 500 }
  | .notFound m => { success := false, message := m, statusCode := 404 }
  | .unclassified _ _ =>
    { success := false, message := "An unexpected error occurred",
      statusCode := 500 }

/-!
Table creation and column type mapping, from
src/backend/services/vastdb_service.py.
-/

/-- The PyArrow types `_map_to_arrow_type` can produce. -/
inductive ArrowType where
  | utf8
  | int64
  | int32
  | float64
  | boolean
  | date32
  | timestampUs
deriving Repr, DecidableEq

/-- The `type_map` dict of `VastDbService._map_to_arrow_type`. -/
def arrowTypeMap : List (String × ArrowType) :=
  [("string", .utf8), ("utf8", .utf8),
   ("int", .int64), ("int64", .int64), ("int32", .int32), ("integer", .int64),
   ("float", .float64), ("float64", .float64), ("double", .float64),
   ("boolean", .boolean), ("bool", .boolean),
   ("date", .date32), ("date32", .date32),
   ("timestamp", .timestampUs)]

/-- Embeds `VastDbService._map_to_arrow_type`:
`type_map.get(type_name, pa.string())`. -/
def map_to_arrow_type (type_name : String) : ArrowType :=
  (arrowTypeMap.lookup type_name).getD .utf8

/-- A column spec as supplied by the caller of `create_table`: its dict
keys `name`, `type` and the optional `nullable`. -/
structure ColumnSpec where
  name : String
  type : String
  nullable : Option Bool
deriving Repr, DecidableEq

/-- A PyArrow field as built by `pa.field(name, type, nullable)`. -/
structure ArrowField where
  name : String
  dtype : ArrowType
  nullable : Bool
deriving Repr, DecidableEq

/-- The three-column default `create_table` substitutes when the caller
supplies no columns. -/
def defaultTableColumns : List ColumnSpec :=
  [{ name := "id", type := "int64", nullable := some false },
   { name := "created_at", type := "timestamp", nullable := some false },
   { name := "updated_at", type := "timestamp", nullable := some true }]

/-- Embeds the column handling of `VastDbService.create_table` (lines
396-411): default the columns when the caller supplies none, then build
one PyArrow field per column, with `col.get("nullable", True)`. -/
def buildArrowFields (columns : List ColumnSpec) : List ArrowField :=
  let cols := if columns.isEmpty then defaultTableColumns else columns
  cols.map (fun c =>
    { name := c.name, dtype := map_to_arrow_type c.type,
      nullable := c.nullable.getD true })

/-!
Sample concrete values used by the witness theorems.
-/

/-- Sample complete claims bundle. -/
def sampleClaims : SessionClaims :=
  { username := some "alice", vastHost := some "vast.example.com",
    vastPort := some 443, tenant := some "default",
    accessToken := some "acc-token", refreshToken := some "ref-token" }

/-- Claims bundle with every field missing from the payload dict. -/
def emptyClaims : SessionClaims :=
  { username := none, vastHost := none, vastPort := none, tenant := none,
    accessToken := none, refreshToken := none }

/-!
Helper lemmas.
-/

/-- On a nondecreasing deque, popping from the front while the head is
older than the cutoff removes exactly the timestamps older than the
cutoff. -/
theorem clean_old_requests_eq_filter (period now : Int) :
    ∀ ts : List Int, ts.Sorted (· ≤ ·) →
      clean_old_requests period now ts =
        ts.filter (fun t => now - period ≤ t) := by
  intro ts
  induction ts with
  | nil => intro _; rfl
  | cons a l ih =>
    intro h
    rw [List.sorted_cons] at h
    obtain ⟨ha, hl⟩ := h
    unfold clean_old_requests at ih ⊢
    by_cases hac : a < now - period
    · rw [List.dropWhile_cons_of_pos (by simp; omega),
        List.filter_cons_of_neg (by simp; omega)]
      exact ih hl
    · rw [List.dropWhile_cons_of_neg (by simp; omega),
        List.filter_cons_of_pos (by simp; omega)]
      congr 1
      symm
      rw [List.filter_eq_self]
      intro b hb
      have hab := ha b hb
      simp
      omega

/-!
Claim theorems.
-/

/-- C2: for every client and every admission check, the dispatch first
drops every recorded timestamp strictly older than `now - period` (on the
nondecreasing timestamp sequences that arise), then rejects without
recording `now` when the remaining count is at least `calls`, and
otherwise appends `now` and admits; the construction defaults are
`calls = 100` and `period = 900`; and concretely with `calls = 3` and
`period = 10`, three calls at `t = 0` are admitted, a fourth call at
`t = 1` is rejected, and a call at `t = 11` is admitted. -/
theorem c2_rate_limiter_sliding_window :
    (∀ (calls : Nat) (period now : Int) (ts : List Int), ts.Sorted (· ≤ ·) →
      dispatch calls period now ts =
        if calls ≤ (ts.filter (fun t => now - period ≤ t)).length then
          { allowed := false, recorded := ts.filter (fun t => now - period ≤ t) }
        else
          { allowed := true,
            recorded := ts.filter (fun t => now - period ≤ t) ++ [now] })
    ∧ rateLimiterDefaultCalls = 100 ∧ rateLimiterDefaultPeriod = 900
    ∧ dispatchTrace 3 10 [0, 0, 0, 1, 11] [] = [true, true, true, false, true] := by
  refine ⟨?_, rfl, rfl, by decide⟩
  intro calls period now ts h
  unfold dispatch
  rw [clean_old_requests_eq_filter period now ts h]

/-- Witness for C2 at a concrete sorted deque: with limit 2, a third
in-window request is rejected and not recorded. -/
theorem c2_rate_limiter_sliding_window_witness :
    dispatch 2 10 6 [0, 3, 5] =
      if 2 ≤ (([0, 3, 5] : List Int).filter (fun t => 6 - 10 ≤ t)).length then
        { allowed := false,
          recorded := ([0, 3, 5] : List Int).filter (fun t => 6 - 10 ≤ t) }
      else
        { allowed := true,
          recorded := ([0, 3, 5] : List Int).filter (fun t => 6 - 10 ≤ t) ++ [6] } :=
  c2_rate_limiter_sliding_window.1 2 10 6 [0, 3, 5] (by decide)

/-- C3: verifying a token minted from a claims bundle, at any time
strictly before its expiry, succeeds and returns exactly the six claim
values unchanged (and the decoded payload carries them with the stamped
`exp` and `iat`). -/
theorem c3_mint_verify_round_trip (secret expStr : String)
    (claims : SessionClaims) (d t0 t : Int)
    (hparse : parse_expires_in expStr = some d) (ht : t < t0 + d) :
    ∃ tok, encode_token (authHandlerInit secret) expStr claims t0 = some tok ∧
      authenticate_token (authHandlerInit secret) tok t = .ok claims ∧
      decode_token (authHandlerInit secret) tok t =
        .ok { claims := claims, exp := t0 + d, iat := t0 } := by
  refine ⟨{ payload := { claims := claims, exp := t0 + d, iat := t0 },
            sig := hs256Sign (authHandlerInit secret).secret
              { claims := claims, exp := t0 + d, iat := t0 } }, ?_, ?_, ?_⟩
  · simp [encode_token, hparse]
  · simp [authenticate_token, decode_token, not_le.mpr ht]
  · simp [decode_token, not_le.mpr ht]

/-- Witness for C3: an 8-hour token minted at time 0 with the sample
claims verifies at time 100. -/
theorem c3_mint_verify_round_trip_witness :
    ∃ tok, encode_token (authHandlerInit "s") "8h" sampleClaims 0 = some tok ∧
      authenticate_token (authHandlerInit "s") tok 100 = .ok sampleClaims ∧
      decode_token (authHandlerInit "s") tok 100 =
        .ok { claims := sampleClaims, exp := 0 + 28800, iat := 0 } :=
  c3_mint_verify_round_trip "s" "8h" sampleClaims 28800 0 100 (by decide) (by decide)

/-- C4: verification checks signature integrity before expiry: a token
whose signature segment does not verify against the shared secret fails
as Invalid with no partial claims; a correctly signed token fails as
Expired exactly when the current time is at or past the embedded `exp`
(and otherwise succeeds); and a token minted with duration "1h" fails at
`now + 61min` and succeeds at `now + 59min`. -/
theorem c4_verify_signature_then_expiry (secret : String) (now : Int) :
    (∀ tok : JwtToken, tok.sig ≠ hs256Sign secret tok.payload →
      decode_token (authHandlerInit secret) tok now = .error .invalid)
    ∧ (∀ tok : JwtToken, tok.sig = hs256Sign secret tok.payload →
        (decode_token (authHandlerInit secret) tok now = .error .expired ↔
          tok.payload.exp ≤ now)
        ∧ (now < tok.payload.exp →
            decode_token (authHandlerInit secret) tok now = .ok tok.payload))
    ∧ (∀ (claims : SessionClaims) (t0 : Int) (tok : JwtToken),
        encode_token (authHandlerInit secret) "1h" claims t0 = some tok →
        decode_token (authHandlerInit secret) tok (t0 + 61 * 60) = .error .expired
        ∧ decode_token (authHandlerInit secret) tok (t0 + 59 * 60) =
            .ok { claims := claims, exp := t0 + 3600, iat := t0 }) := by
  refine ⟨?_, ?_, ?_⟩
  · intro tok hsig
    simp [decode_token, authHandlerInit, hsig]
  · intro tok hsig
    constructor
    · by_cases he : tok.payload.exp ≤ now <;>
        simp [decode_token, authHandlerInit, hsig, he]
    · intro hlt
      simp [decode_token, authHandlerInit, hsig, not_le.mpr hlt]
  · intro claims t0 tok henc
    have hp : parse_expires_in "1h" = some 3600 := by decide
    rw [encode_token, hp, Option.map_some'] at henc
    obtain rfl :
        tok = { payload := { claims := claims, exp := t0 + 3600, iat := t0 },
                sig := hs256Sign (authHandlerInit secret).secret
                  { claims := claims, exp := t0 + 3600, iat := t0 } } :=
      (Option.some.inj henc).symm
    constructor
    · simp [decode_token]
    · simp [decode_token]

/-- Witness for C4: a token signed under a different secret is Invalid; a
correctly signed token with `exp = 5` is Expired at time 10 and decodes
at time 2; a concrete "1h" token expires at minute 61 and verifies at
minute 59. -/
theorem c4_verify_signature_then_expiry_witness :
    decode_token (authHandlerInit "s")
        { payload := { claims := sampleClaims, exp := 5, iat := 0 },
          sig := hs256Sign "other" { claims := sampleClaims, exp := 5, iat := 0 } }
        10 = .error .invalid
    ∧ ((decode_token (authHandlerInit "s")
          { payload := { claims := sampleClaims, exp := 5, iat := 0 },
            sig := hs256Sign "s" { claims := sampleClaims, exp := 5, iat := 0 } }
          10 = .error .expired) ↔ (5 : Int) ≤ 10)
    ∧ decode_token (authHandlerInit "s")
        { payload := { claims := sampleClaims, exp := 5, iat := 0 },
          sig := hs256Sign "s" { claims := sampleClaims, exp := 5, iat := 0 } }
        2 = .ok { claims := sampleClaims, exp := 5, iat := 0 }
    ∧ decode_token (authHandlerInit "s")
        { payload := { claims := sampleClaims, exp := 0 + 3600, iat := 0 },
          sig := hs256Sign (authHandlerInit "s").secret
            { claims := sampleClaims, exp := 0 + 3600, iat := 0 } }
        (0 + 61 * 60) = .error .expired :=
  ⟨(c4_verify_signature_then_expiry "s" 10).1 _ (by decide),
   ((c4_verify_signature_then_expiry "s" 10).2.1 _ rfl).1,
   ((c4_verify_signature_then_expiry "s" 2).2.1 _ rfl).2 (by decide),
   ((c4_verify_signature_then_expiry "s" 0).2.2 sampleClaims 0 _ (by decide)).1⟩

/-- C10: verification accepts any correctly signed, unexpired token
regardless of its payload contents: no claim field is required, and a
payload with any or all of the six fields missing (`none`) still
verifies, the missing fields surfacing as `none` in the claims map the
authentication dependency returns. -/
theorem c10_verify_requires_no_claim_fields (secret : String)
    (claims : SessionClaims) (e i now : Int) (hnow : now < e) :
    decode_token (authHandlerInit secret)
        { payload := { claims := claims, exp := e, iat := i },
          sig := hs256Sign secret { claims := claims, exp := e, iat := i } } now =
      .ok { claims := claims, exp := e, iat := i }
    ∧ authenticate_token (authHandlerInit secret)
        { payload := { claims := claims, exp := e, iat := i },
          sig := hs256Sign secret { claims := claims, exp := e, iat := i } } now =
      .ok claims := by
  constructor <;>
    simp [decode_token, authenticate_token, authHandlerInit, not_le.mpr hnow]

/-- Witness for C10: the all-fields-missing payload verifies and every
claim field comes back `none`. -/
theorem c10_verify_requires_no_claim_fields_witness :
    authenticate_token (authHandlerInit "s")
        { payload := { claims := emptyClaims, exp := 100, iat := 0 },
          sig := hs256Sign "s" { claims := emptyClaims, exp := 100, iat := 0 } } 7 =
      .ok emptyClaims :=
  (c10_verify_requires_no_claim_fields "s" emptyClaims 100 0 7 (by decide)).2

/-- C7 as stated is false on the code: an unparseable lifetime string
does not fail at startup.  `AuthHandler.__init__` (run at module import,
the startup point) reads only the secret and succeeds for the unparseable
value "banana"; the parse failure only surfaces when `encode_token` is
first called. -/
theorem c7_parse_at_startup_counterexample :
    parse_expires_in "banana" = none
    ∧ startupAuthHandler "secret" "banana" = some (authHandlerInit "secret")
    ∧ encode_token (authHandlerInit "secret") "banana" sampleClaims 0 = none := by
  refine ⟨by decide, rfl, ?_⟩
  rw [encode_token, (by decide : parse_expires_in "banana" = none), Option.map_none']

/-- C7 amended: the configured token lifetime string is parsed as an
integer with unit suffix h (hours), m (minutes) or d (days), a bare
integer defaulting to hours; an unparseable value does not fail at
startup (handler construction never parses it and always succeeds) but
fails at each mint, the first included. -/
theorem c7_lifetime_parse_grammar_and_lazy_failure :
    parse_expires_in "8h" = some (8 * 3600)
    ∧ parse_expires_in "30m" = some (30 * 60)
    ∧ parse_expires_in "1d" = some 86400
    ∧ parse_expires_in "12" = some (12 * 3600)
    ∧ (∀ (jwtSecret expStr : String) (claims : SessionClaims) (now : Int),
        parse_expires_in expStr = none →
          startupAuthHandler jwtSecret expStr = some (authHandlerInit jwtSecret)
          ∧ encode_token (authHandlerInit jwtSecret) expStr claims now = none) := by
  refine ⟨by decide, by decide, by decide, by decide, ?_⟩
  intro jwtSecret expStr claims now hp
  exact ⟨rfl, by rw [encode_token, hp, Option.map_none']⟩

/-- Witness for C7 amended: instantiated at the unparseable value
"banana". -/
theorem c7_lifetime_parse_grammar_and_lazy_failure_witness :
    startupAuthHandler "secret2" "banana" = some (authHandlerInit "secret2")
    ∧ encode_token (authHandlerInit "secret2") "banana" sampleClaims 3 = none :=
  c7_lifetime_parse_grammar_and_lazy_failure.2.2.2.2 "secret2" "banana"
    sampleClaims 3 (by decide)

/-- C8: whenever the remote token endpoint answers with a success status
but the parsed body lacks the access token or lacks the refresh token,
authenticate returns a structured failure (success false with a message)
to its caller; the embedding is a total function, modelling that the
enclosing `except Exception` lets no exception propagate. -/
theorem c8_authenticate_malformed_response (body : AuthResponseBody)
    (h : body.access = none ∨ body.refresh = none) :
    (handleAuthSuccessBody body).success = false
    ∧ ((handleAuthSuccessBody body).message =
          some "Authentication response missing access token"
        ∨ (handleAuthSuccessBody body).message =
          some "Authentication failed: 'refresh'") := by
  rcases h with h | h
  · simp [handleAuthSuccessBody, h, pyTruthy]
  · cases ha : body.access with
    | none => simp [handleAuthSuccessBody, ha, pyTruthy]
    | some a =>
      by_cases he : a = "" <;>
        simp [handleAuthSuccessBody, ha, h, pyTruthy, he]

/-- Witness for C8: a body with an access token but no refresh token
yields a structured failure. -/
theorem c8_authenticate_malformed_response_witness :
    (handleAuthSuccessBody { access := some "tok", refresh := none }).success = false
    ∧ ((handleAuthSuccessBody { access := some "tok", refresh := none }).message =
          some "Authentication response missing access token"
        ∨ (handleAuthSuccessBody { access := some "tok", refresh := none }).message =
          some "Authentication failed: 'refresh'") :=
  c8_authenticate_malformed_response { access := some "tok", refresh := none }
    (Or.inr rfl)

/-- C9: with no caller-supplied columns, `create_table` builds the fixed
three-column skeleton (id 64-bit integer not nullable, created_at
microsecond timestamp not nullable, updated_at microsecond timestamp
nullable); every supplied column type name is mapped through the fixed
lexical table, "integer" in particular to a 64-bit integer field; and
every type name outside the table, such as "mystery", produces a text
field rather than a failure. -/
theorem c9_create_table_column_mapping :
    buildArrowFields [] =
      [{ name := "id", dtype := .int64, nullable := false },
       { name := "created_at", dtype := .timestampUs, nullable := false },
       { name := "updated_at", dtype := .timestampUs, nullable := true }]
    ∧ (∀ cols : List ColumnSpec, cols ≠ [] →
        buildArrowFields cols = cols.map (fun c =>
          { name := c.name, dtype := map_to_arrow_type c.type,
            nullable := c.nullable.getD true }))
    ∧ map_to_arrow_type "integer" = .int64
    ∧ map_to_arrow_type "mystery" = .utf8
    ∧ (∀ t : String, t ∉ arrowTypeMap.map Prod.fst →
        map_to_arrow_type t = .utf8) := by
  refine ⟨by decide, ?_, by decide, by decide, ?_⟩
  · intro cols hne
    rw [buildArrowFields, if_neg (by simpa using hne)]
  · intro t ht
    have hnone : arrowTypeMap.lookup t = none := by
      rw [List.lookup_eq_none_iff]
      intro p hp
      simp only [bne_iff_ne, ne_eq]
      intro hEq
      exact ht (hEq ▸ List.mem_map_of_mem Prod.fst hp)
    rw [map_to_arrow_type, hnone, Option.getD_none]

/-- Witness for C9: a two-column spec with type names "integer" and
"mystery" maps to a 64-bit integer field and a text field. -/
theorem c9_create_table_column_mapping_witness :
    buildArrowFields
        [{ name := "n", type := "integer", nullable := none },
         { name := "m", type := "mystery", nullable := some false }] =
      ([{ name := "n", type := "integer", nullable := none },
        { name := "m", type := "mystery", nullable := some false }] :
          List ColumnSpec).map (fun c =>
        { name := c.name, dtype := map_to_arrow_type c.type,
          nullable := c.nullable.getD true }) :=
  c9_create_table_column_mapping.2.1
    [{ name := "n", type := "integer", nullable := none },
     { name := "m", type := "mystery", nullable := some false }] (by decide)

/-- C6: the error translator is total on caught store failures: every
missing-resource exception maps to the NotFound kind (HTTP 404) carrying
its message; every schema-exists or table-exists exception maps to the
AlreadyExists kind (HTTP 409); and every exception matching no known
category maps to the Internal kind (HTTP 500) with the fixed generic
message, never echoing the exception's own text. -/
theorem c6_error_translator_total :
    (∀ m, handle_vastdb_error (.missingBucket m) =
      { success := false, message := m, statusCode := 404 })
    ∧ (∀ m, handle_vastdb_error (.missingSchema m) =
      { success := false, message := m, statusCode := 404 })
    ∧ (∀ m, handle_vastdb_error (.missingTable m) =
      { success := false, message := m, statusCode := 404 })
    ∧ (∀ m, handle_vastdb_error (.missingProjection m) =
      { success := false, message := m, statusCode := 404 })
    ∧ (∀ m, handle_vastdb_error (.schemaExists m) =
      { success := false, message := m, statusCode := 409 })
    ∧ (∀ m, handle_vastdb_error (.tableExists m) =
      { success := false, message := m, statusCode := 409 })
    ∧ (∀ typeName m, handle_vastdb_error (.unclassified typeName m) =
      { success := false, message := "An unexpected error occurred",
        statusCode := 500 }) :=
  ⟨fun _ => rfl, fun _ => rfl, fun _ => rfl, fun _ => rfl,
   fun _ => rfl, fun _ => rfl, fun _ _ => rfl⟩

/-- C5 as stated is false on the code: two `createSchema(name,
failIfExists=false)` calls both return Ok, but the returned schema
descriptors are not identical, because `create_schema` stamps `created`
with `datetime.utcnow()` at each call; concretely, calls at times 0 and 1
differ. -/
theorem c5_identical_descriptor_counterexample :
    (create_schema "bucket" [] "a" false 0).1.success = true
    ∧ (create_schema "bucket" (create_schema "bucket" [] "a" false 0).2
        "a" false 1).1.success = true
    ∧ (create_schema "bucket" [] "a" false 0).1.schema ≠
        (create_schema "bucket" (create_schema "bucket" [] "a" false 0).2
          "a" false 1).1.schema := by
  refine ⟨rfl, rfl, ?_⟩
  have h1 : (create_schema "bucket" [] "a" false 0).1.schema =
      some (mkSchemaDescriptor "bucket" "a" 0) := rfl
  have h2 : (create_schema "bucket" (create_schema "bucket" [] "a" false 0).2
      "a" false 1).1.schema = some (mkSchemaDescriptor "bucket" "a" 1) := rfl
  rw [h1, h2]
  intro h
  have hc := congrArg (fun o => Option.map SchemaDescriptor.created o) h
  simp [mkSchemaDescriptor] at hc

/-- C5 amended: with `failIfExists = false` both calls return Ok, and the
two descriptors agree on every field except `created`, which records each
call's current time, so calls sharing a timestamp return identical
descriptors; with `failIfExists = true` a `createSchema` on an existing
schema returns an already-exists failure rather than Ok. -/
theorem c5_create_schema_idempotence (bucket_name : String)
    (store : List String) (name : String) (t1 t2 : Int) :
    (create_schema bucket_name store name false t1).1.success = true
    ∧ (create_schema bucket_name
        (create_schema bucket_name store name false t1).2 name false t2).1 =
      { success := true, schema := some (mkSchemaDescriptor bucket_name name t2),
        message := "Schema '" ++ name ++ "' already exists" }
    ∧ (create_schema bucket_name store name false t1).1.schema =
        some (mkSchemaDescriptor bucket_name name t1)
    ∧ (t1 = t2 →
        (create_schema bucket_name store name false t1).1.schema =
          (create_schema bucket_name
            (create_schema bucket_name store name false t1).2 name false t2).1.schema)
    ∧ (create_schema bucket_name
        (create_schema bucket_name store name false t1).2 name true t2).1 =
      { success := false, schema := none,
        message := "Schema '" ++ name ++ "' already exists" } := by
  have hrun : create_schema bucket_name store name false t1 =
      ({ success := true, schema := some (mkSchemaDescriptor bucket_name name t1),
         message :=
           if name ∈ store then "Schema '" ++ name ++ "' already exists"
           else "Schema '" ++ name ++ "' created successfully" },
       if name ∈ store then store else store ++ [name]) := by
    by_cases hmem : name ∈ store <;>
      simp [create_schema, bucket_create_schema, hmem]
  have hmem2 : name ∈ (if name ∈ store then store else store ++ [name]) := by
    by_cases hmem : name ∈ store <;> simp [hmem]
  rw [hrun]
  refine ⟨rfl, ?_, rfl, ?_, ?_⟩
  · simp [create_schema, bucket_create_schema, hmem2]
  · intro ht
    subst ht
    simp [create_schema, bucket_create_schema, hmem2]
  · simp [create_schema, bucket_create_schema, hmem2]

/-- Witness for C5 amended: two calls at the same instant return the same
descriptor. -/
theorem c5_create_schema_idempotence_witness :
    (create_schema "b" ["x"] "a" false 5).1.schema =
      (create_schema "b" (create_schema "b" ["x"] "a" false 5).2
        "a" false 5).1.schema :=
  (c5_create_schema_idempotence "b" ["x"] "a" 5 5).2.2.2.1 rfl

/-- One `_ensure_connection` call either makes no `vastdb.connect`
attempt and leaves the state unchanged, or makes exactly one attempt and
marks the state as attempted. -/
theorem ensure_connection_cases (env : Except String Unit) (s : DbState) :
    ((ensure_connection env s).2.2 = 0 ∧ (ensure_connection env s).2.1 = s) ∨
    ((ensure_connection env s).2.2 = 1
      ∧ (ensure_connection env s).2.1.connectionAttempted = true) := by
  unfold ensure_connection
  split_ifs <;> try exact Or.inl ⟨rfl, rfl⟩
  cases env <;> exact Or.inr ⟨rfl, rfl⟩

/-- With the attempted flag set, `_ensure_connection` makes no call and
changes no state. -/
theorem ensure_connection_attempted (env : Except String Unit) (s : DbState)
    (h : s.connectionAttempted = true) :
    (ensure_connection env s).2 = (s, 0) := by
  unfold ensure_connection
  split_ifs <;> simp_all

/-- State and count of `_ensure_connection`, exactly: unchanged, or the
successful-attempt update, or the failed-attempt update. -/
theorem ensure_connection_state (env : Except String Unit) (s : DbState) :
    (ensure_connection env s).2.1 = s ∨
    (s.sdkError = none ∧ s.connectionError = none ∧ s.session = none ∧
      ((ensure_connection env s).2.1 =
          { s with session := some (), connectionAttempted := true }
        ∨ (∃ e, (ensure_connection env s).2.1 =
            { s with connectionError := some e, connectionAttempted := true }))) := by
  unfold ensure_connection
  split_ifs with h1 h2 h3 h4
  · exact Or.inl rfl
  · exact Or.inl rfl
  · exact Or.inl rfl
  · exact Or.inl rfl
  · right
    refine ⟨Option.not_isSome_iff_eq_none.mp (by simpa using h1),
      Option.not_isSome_iff_eq_none.mp (by simpa using h3),
      Option.not_isSome_iff_eq_none.mp (by simpa using h2), ?_⟩
    cases env with
    | ok u => exact Or.inl rfl
    | error e => exact Or.inr ⟨e, rfl⟩

/-- `_ensure_connection` preserves the reachable-state invariant. -/
theorem ensure_connection_wf (env : Except String Unit) (s : DbState)
    (h : DbWF s) : DbWF (ensure_connection env s).2.1 := by
  rcases ensure_connection_state env s with heq | ⟨hsdk, hce, hses, heq | ⟨e, heq⟩⟩
  · rw [heq]; exact h
  · rw [heq]; simp [DbWF, hsdk, hce]
  · rw [heq]; simp [DbWF, hsdk, hses]

/-- State and count of `opGuard` come from its `_ensure_connection` call,
or it fails fast without one. -/
theorem opGuard_state (env : Except String Unit) (s : DbState) :
    (opGuard env s).2 = (s, 0) ∨ (opGuard env s).2 = (ensure_connection env s).2 := by
  unfold opGuard
  rcases hsdk : s.sdkError with _ | e
  · rcases he : ensure_connection env s with ⟨b, s2, n⟩
    cases b <;> simp [hsdk, he]
  · simp [hsdk]

/-- State and count of `connectGuard` come from its `_ensure_connection`
call, or it fails fast without one. -/
theorem connectGuard_state (env : Except String Unit) (s : DbState) :
    (connectGuard env s).2 = (s, 0) ∨
    (connectGuard env s).2 = (ensure_connection env s).2 := by
  unfold connectGuard
  rcases hsdk : s.sdkError with _ | e
  · by_cases hc : (s.connectionError.isSome && !s.connectionAttempted) = true
    · simp [hsdk, hc]
    · rcases he : ensure_connection env s with ⟨b, s2, n⟩
      cases b <;> simp [hsdk, hc, he]
  · simp [hsdk]

/-- State and count of any operation's guard. -/
theorem runOpGuard_state (k : OpKind) (env : Except String Unit) (s : DbState) :
    (runOpGuard k env s).2 = (s, 0) ∨
    (runOpGuard k env s).2 = (ensure_connection env s).2 := by
  cases k <;>
    first
    | exact connectGuard_state env s
    | exact opGuard_state env s

/-- Any operation's guard makes no attempt and keeps the state, or makes
exactly one attempt and marks the state as attempted. -/
theorem runOpGuard_cases (k : OpKind) (env : Except String Unit) (s : DbState) :
    ((runOpGuard k env s).2.2 = 0 ∧ (runOpGuard k env s).2.1 = s) ∨
    ((runOpGuard k env s).2.2 = 1
      ∧ (runOpGuard k env s).2.1.connectionAttempted = true) := by
  rcases runOpGuard_state k env s with h | h
  · left
    exact ⟨by rw [h], by rw [h]⟩
  · rcases ensure_connection_cases env s with ⟨hn, hs⟩ | ⟨hn, hs⟩
    · left
      exact ⟨by rw [h]; exact hn, by rw [h]; exact hs⟩
    · right
      exact ⟨by rw [h]; exact hn, by rw [h]; exact hs⟩

/-- After the attempted flag is set, a guard makes no further attempt and
keeps the state. -/
theorem runOpGuard_attempted (k : OpKind) (env : Except String Unit)
    (s : DbState) (h : s.connectionAttempted = true) :
    (runOpGuard k env s).2 = (s, 0) := by
  rcases runOpGuard_state k env s with h2 | h2
  · exact h2
  · rw [h2, ensure_connection_attempted env s h]

/-- Any operation's guard preserves the reachable-state invariant. -/
theorem runOpGuard_wf (k : OpKind) (env : Except String Unit) (s : DbState)
    (h : DbWF s) : DbWF (runOpGuard k env s).2.1 := by
  rcases runOpGuard_state k env s with h2 | h2
  · rw [show (runOpGuard k env s).2.1 = ((runOpGuard k env s).2).1 from rfl, h2]
    exact h
  · rw [show (runOpGuard k env s).2.1 = ((runOpGuard k env s).2).1 from rfl, h2]
    exact ensure_connection_wf env s h

/-- From an attempted state, a whole operation sequence makes no attempt
and keeps the state. -/
theorem runOps_attempted (env : Except String Unit) :
    ∀ (ops : List OpKind) (s : DbState), s.connectionAttempted = true →
      runOps env ops s = (s, 0) := by
  intro ops
  induction ops with
  | nil => intro s _; rfl
  | cons k rest ih =>
    intro s h
    have hg := runOpGuard_attempted k env s h
    have h1 : (runOpGuard k env s).2.1 = s := by rw [hg]
    have h2 : (runOpGuard k env s).2.2 = 0 := by rw [hg]
    simp only [runOps]
    rw [h1, h2, ih s h]
    simp

/-- Across any operation sequence, at most one `vastdb.connect` attempt
is ever made. -/
theorem runOps_attempts_le_one (env : Except String Unit) :
    ∀ (ops : List OpKind) (s : DbState), (runOps env ops s).2 ≤ 1 := by
  intro ops
  induction ops with
  | nil => intro s; simp [runOps]
  | cons k rest ih =>
    intro s
    show (runOpGuard k env s).2.2 +
      (runOps env rest (runOpGuard k env s).2.1).2 ≤ 1
    rcases runOpGuard_cases k env s with ⟨h0, _⟩ | ⟨h1, hatt⟩
    · rw [h0]
      simpa using ih ((runOpGuard k env s).2.1)
    · rw [h1, runOps_attempted env rest _ hatt]
      simp

/-- A recorded connection error makes every guard fail fast with the
cached message (the connection test may prepend its fixed
configuration-error qualifier), with the state unchanged and no
attempt. -/
theorem runOpGuard_sticky (k : OpKind) (env : Except String Unit)
    (s : DbState) (msg : String) (hwf : DbWF s)
    (hmsg : s.connectionError = some msg) :
    runOpGuard k env s = (.failed msg, s, 0) ∨
      (k = .connect ∧ runOpGuard k env s =
        (.failed ("VAST Database configuration error: " ++ msg), s, 0)) := by
  have hses : s.session = none := hwf.2 (by simp [hmsg])
  rcases hsdk : s.sdkError with _ | e
  · have hens : ensure_connection env s = (false, s, 0) := by
      unfold ensure_connection
      rw [if_neg (by simp [hsdk]), if_neg (by simp [hses]),
        if_pos (by simp [hmsg])]
    cases k with
    | connect =>
      cases hatt : s.connectionAttempted
      · right
        refine ⟨rfl, ?_⟩
        show connectGuard env s = _
        simp only [connectGuard, hsdk]
        rw [if_pos (by simp [hmsg, hatt])]
        simp [hmsg]
      · left
        show connectGuard env s = _
        simp only [connectGuard, hsdk]
        rw [if_neg (by simp [hatt]), hens]
        simp [hmsg]
    | createSchema => left; simp [runOpGuard, opGuard, hsdk, hens, hmsg]
    | listSchemas => left; simp [runOpGuard, opGuard, hsdk, hens, hmsg]
    | getSchema => left; simp [runOpGuard, opGuard, hsdk, hens, hmsg]
    | deleteSchema => left; simp [runOpGuard, opGuard, hsdk, hens, hmsg]
    | createTable => left; simp [runOpGuard, opGuard, hsdk, hens, hmsg]
  · left
    have hmsg2 : msg = "VastDB SDK not available: " ++ e := by
      have h2 := hwf.1 e hsdk
      rw [hmsg] at h2
      exact Option.some.inj h2
    cases k <;> simp [runOpGuard, opGuard, connectGuard, hsdk, hmsg2]

/-- A clean first-use state whose connect attempt fails records the
failure and reports it, for every operation. -/
theorem runOpGuard_first_failure (k : OpKind) (e : String) (s : DbState)
    (hsdk : s.sdkError = none) (hses : s.session = none)
    (hce : s.connectionError = none) (hatt : s.connectionAttempted = false) :
    runOpGuard k (.error e) s =
      (.failed e,
       { s with connectionError := some e, connectionAttempted := true }, 1) := by
  have hens : ensure_connection (.error e) s =
      (false,
       { s with connectionError := some e, connectionAttempted := true }, 1) := by
    unfold ensure_connection
    rw [if_neg (by simp [hsdk]), if_neg (by simp [hses]),
      if_neg (by simp [hce]), if_neg (by simp [hatt])]
  cases k <;> simp [runOpGuard, opGuard, connectGuard, hsdk, hce, hatt, hens]

/-- The construction-time checks always establish the invariant. -/
theorem vastDbServiceInit_wf (sdkCheck : Option String)
    (configCheck : Except String Unit) :
    DbWF (vastDbServiceInit sdkCheck configCheck) := by
  cases sdkCheck <;> cases configCheck <;> simp [vastDbServiceInit, DbWF]

/-- C1: once the manager records a failure — a configuration error or SDK
unavailability at construction (both cached in `_connection_error`), or
one failed first-use connection attempt — every subsequent operation
(connect, createSchema, listSchemas, getSchema, deleteSchema,
createTable) fails immediately with the cached error message (`connect`
alone may prepend its fixed configuration-error qualifier), leaving the
state unchanged and making no connection attempt; and across any
operation sequence at most one underlying `vastdb.connect` attempt is
ever made. -/
theorem c1_circuit_breaker :
    (∀ (k : OpKind) (env : Except String Unit) (s : DbState) (msg : String),
      DbWF s → s.connectionError = some msg →
        runOpGuard k env s = (.failed msg, s, 0) ∨
          (k = .connect ∧ runOpGuard k env s =
            (.failed ("VAST Database configuration error: " ++ msg), s, 0)))
    ∧ (∀ (e : String) (configCheck : Except String Unit),
        (vastDbServiceInit (some e) configCheck).connectionError =
          some ("VastDB SDK not available: " ++ e))
    ∧ (∀ e : String,
        (vastDbServiceInit none (.error e)).connectionError = some e)
    ∧ (∀ (sdkCheck : Option String) (configCheck : Except String Unit),
        DbWF (vastDbServiceInit sdkCheck configCheck))
    ∧ (∀ (k : OpKind) (env : Except String Unit) (s : DbState),
        DbWF s → DbWF (runOpGuard k env s).2.1)
    ∧ (∀ (k : OpKind) (e : String) (s : DbState),
        s.sdkError = none → s.session = none → s.connectionError = none →
        s.connectionAttempted = false →
        runOpGuard k (.error e) s =
          (.failed e,
           { s with connectionError := some e, connectionAttempted := true }, 1))
    ∧ (∀ (env : Except String Unit) (ops : List OpKind) (s : DbState),
        (runOps env ops s).2 ≤ 1) :=
  ⟨fun k env s msg hwf hmsg => runOpGuard_sticky k env s msg hwf hmsg,
   fun _ _ => rfl,
   fun _ => rfl,
   vastDbServiceInit_wf,
   fun k env s h => runOpGuard_wf k env s h,
   fun k e s h1 h2 h3 h4 => runOpGuard_first_failure k e s h1 h2 h3 h4,
   fun env ops s => runOps_attempts_le_one env ops s⟩

/-- Witness for C1: a manager constructed with a configuration error
fails a createSchema immediately with the cached message, unchanged state
and no attempt. -/
theorem c1_circuit_breaker_witness :
    runOpGuard .createSchema (.ok ())
        (vastDbServiceInit none (.error "Missing VAST settings")) =
      (.failed "Missing VAST settings",
       vastDbServiceInit none (.error "Missing VAST settings"), 0)
    ∨ (OpKind.createSchema = OpKind.connect ∧
       runOpGuard .createSchema (.ok ())
          (vastDbServiceInit none (.error "Missing VAST settings")) =
        (.failed ("VAST Database configuration error: " ++ "Missing VAST settings"),
         vastDbServiceInit none (.error "Missing VAST settings"), 0)) :=
  c1_circuit_breaker.1 .createSchema (.ok ())
    (vastDbServiceInit none (.error "Missing VAST settings"))
    "Missing VAST settings" (by simp [vastDbServiceInit, DbWF]) rfl
